import Mathlib

/-!
Shallow embedding of the interaction/geometry engine of `src/graph/workflow.ts`
(class `Workflow`) and the plugin contract of `src/plugins/plugin.ts`.

Numbers are modelled with `ℚ` (the affine-transform arithmetic of the source is
exact division/multiplication/addition, so rationals track the JavaScript float
computations exactly on rational inputs).  The SVG root is modelled as sitting
at the page origin with an identity viewport, so the screen CTM of the
`.workflow` group equals its own `transform` matrix; that matrix always has
`b = c = 0` in the source (it is initialised to `matrix(1,0,0,1,0,0)` and only
`a`, `d`, `e`, `f` are ever written), so a matrix is a 4-tuple here.
-/

/-- The `a`, `d`, `e`, `f` entries of the SVG transform matrix of the
`.workflow` group (`b = c = 0` throughout the source). -/
structure TransformMatrix where
  a : ℚ
  d : ℚ
  e : ℚ
  f : ℚ
deriving DecidableEq, Repr

/-- A point, in screen or canvas coordinates. -/
structure Point where
  x : ℚ
  y : ℚ
deriving DecidableEq, Repr

/-- The viewport state owned by `Workflow`: the `scale` field plus the
transform matrix of the `.workflow` group. -/
structure WorkflowState where
  scale : ℚ
  matrix : TransformMatrix
deriving DecidableEq, Repr

/-- The state right after the constructor: `scale = 1`,
`transform="matrix(1,0,0,1,0,0)"`. -/
def initWorkflowState : WorkflowState :=
  { scale := 1, matrix := { a := 1, d := 1, e := 0, f := 0 } }

/-- `Workflow.minScale = 0.2`. -/
def minScale : ℚ := 0.2

/-- `Workflow.maxScale = 2`. -/
def maxScale : ℚ := 2

/-- `transformScreenCTMtoCanvas(x, y)`: applies the inverse of the workflow's
screen CTM to the point.  With the SVG root at the page origin the CTM is the
workflow matrix `(a, 0, 0, d, e, f)`, whose inverse sends `(x, y)` to
`((x - e) / a, (y - f) / d)`. -/
def transformScreenCTMtoCanvas (st : WorkflowState) (x y : ℚ) : Point :=
  { x := (x - st.matrix.e) / st.matrix.a
  , y := (y - st.matrix.f) / st.matrix.d }

/-- The forward transform the matrix applies to canvas-space content:
`(x, y) ↦ (a·x + e, d·y + f)`. -/
def forwardTransform (st : WorkflowState) (p : Point) : Point :=
  { x := st.matrix.a * p.x + st.matrix.e
  , y := st.matrix.d * p.y + st.matrix.f }

/-- `scaleWorkflow(scaleCoefficient, ev?)`: sets `this.scale`, converts the
event coordinates (or `(0,0)` when no event is given) to canvas space, then
updates the matrix in the source's statement order:
`e += a * coords.x`, `f += a * coords.y`, `a = d = scaleCoefficient`,
`e -= scaleCoefficient * coords.x`, `f -= scaleCoefficient * coords.y`.
(The side effect on `.node .label` elements is outside the viewport state.) -/
def scaleWorkflow (scaleCoefficient : ℚ) (ev : Option Point) (st : WorkflowState) :
    WorkflowState :=
  let evX := match ev with
    | some p => p.x
    | none => 0
  let evY := match ev with
    | some p => p.y
    | none => 0
  let coords := transformScreenCTMtoCanvas st evX evY
  let e1 := st.matrix.e + st.matrix.a * coords.x
  let f1 := st.matrix.f + st.matrix.a * coords.y
  { scale := scaleCoefficient
  , matrix :=
    { a := scaleCoefficient
    , d := scaleCoefficient
    , e := e1 - scaleCoefficient * coords.x
    , f := f1 - scaleCoefficient * coords.y } }

/-- The `mousewheel` listener installed in the constructor: does nothing while
dragging; otherwise computes `scale = this.scale + ev.deltaY / 500` and returns
without touching anything when `scale <= minScale || scale >= maxScale`, else
calls `scaleWorkflow(scale, ev)`. -/
def mousewheelHandler (st : WorkflowState) (isDragging : Bool)
    (deltaY clientX clientY : ℚ) : WorkflowState :=
  if isDragging then st
  else
    let scale := st.scale + deltaY / 500
    if scale ≤ minScale ∨ scale ≥ maxScale then st
    else scaleWorkflow scale (some { x := clientX, y := clientY }) st

/-- A bounding client rectangle, as reported by `getBoundingClientRect`
(`right = left + width`, `bottom = top + height`). -/
structure Rect where
  left : ℚ
  top : ℚ
  width : ℚ
  height : ℚ
deriving DecidableEq, Repr

def Rect.right (r : Rect) : ℚ := r.left + r.width

def Rect.bottom (r : Rect) : ℚ := r.top + r.height

/-- The bounding client rectangle of canvas-space content with bounds `r` once
the matrix `m` is applied (corners transformed; `getBoundingClientRect` reports
the axis-aligned hull, so a negative scale flips the corners). -/
def transformRect (m : TransformMatrix) (r : Rect) : Rect :=
  let x1 := m.a * r.left + m.e
  let x2 := m.a * (r.left + r.width) + m.e
  let y1 := m.d * r.top + m.f
  let y2 := m.d * (r.top + r.height) + m.f
  { left := min x1 x2, top := min y1 y2, width := |x2 - x1|, height := |y2 - y1| }

/-- The error thrown by `fitToViewport` ("Cannot fit workflow to the area that
has no visible viewport.").  It carries the engine state at the moment of the
throw: the source has already run `scaleWorkflow(1)` and zeroed `e`/`f` when it
throws, and that mutation survives the exception. -/
structure ViewportError where
  state : WorkflowState
deriving DecidableEq, Repr

/-- `fitToViewport()`.  `content` is the bounding rectangle the workflow
content would have under the identity transform (so `wfBounds`, measured right
after `scaleWorkflow(1)` and `e = f = 0`, equals `content`, and
`scaledWFBounds` is `content` pushed through the new matrix);
`client` is `svgRoot.getBoundingClientRect()`. -/
def fitToViewport (st : WorkflowState) (content client : Rect) :
    Except ViewportError WorkflowState :=
  let st1 := scaleWorkflow 1 none st
  let st2 : WorkflowState :=
    { st1 with matrix := { st1.matrix with e := 0, f := 0 } }
  if client.width = 0 ∨ client.height = 0 then
    .error { state := st2 }
  else
    let padding : ℚ := 100
    let verticalScale := content.height / (client.height - padding)
    let horizontalScale := content.width / (client.width - padding)
    let scaleFactor := max verticalScale horizontalScale
    -- Cap the upscaling to 1 (`Math.min(this.scale / scaleFactor, 1)`)
    let newScale := min (st2.scale / scaleFactor) 1
    let st3 := scaleWorkflow newScale none st2
    let scaledWFBounds := transformRect st3.matrix content
    let moveY := client.top - scaledWFBounds.top + |client.height - scaledWFBounds.height| / 2
    let moveX := client.left - scaledWFBounds.left + |client.width - scaledWFBounds.width| / 2
    .ok { st3 with matrix :=
          { st3.matrix with e := st3.matrix.e + moveX, f := st3.matrix.f + moveY } }

/-- The cubic path `M x1 y1 C c1x c1y c2x c2y x2 y2` whose coordinates
`Workflow.makeConnectionPath` interpolates into its result string. -/
structure ConnectionPath where
  x1 : ℚ
  y1 : ℚ
  c1x : ℚ
  c1y : ℚ
  c2x : ℚ
  c2y : ℚ
  x2 : ℚ
  y2 : ℚ
deriving DecidableEq, Repr

/-- `Workflow.makeConnectionPath(x1, y1, x2, y2, forceDirection)` with the
direction argument explicitly supplied.  An empty string is the only falsy
string, so `!forceDirection` selects the midpoint curve exactly for `""`; any
string other than `""`, `"right"`, `"left"` falls through every branch and the
function returns `undefined` (`none` here). -/
def makeConnectionPath (x1 y1 x2 y2 : ℚ) (forceDirection : String) :
    Option ConnectionPath :=
  if forceDirection = "" then
    some { x1 := x1, y1 := y1
         , c1x := (x1 + x2) / 2, c1y := y1
         , c2x := (x1 + x2) / 2, c2y := y2
         , x2 := x2, y2 := y2 }
  else if forceDirection = "right" then
    some { x1 := x1, y1 := y1
         , c1x := x1 + |x1 - x2| / 2, c1y := y1
         , c2x := x2 - |x1 - x2| / 2, c2y := y2
         , x2 := x2, y2 := y2 }
  else if forceDirection = "left" then
    some { x1 := x1, y1 := y1
         , c1x := x1 - |x1 - x2| / 2, c1y := y1
         , c2x := x2 + |x1 - x2| / 2, c2y := y2
         , x2 := x2, y2 := y2 }
  else none

/-- `makeConnectionPath` called without a direction argument: the TypeScript
parameter default `forceDirection = "right"` applies. -/
def makeConnectionPathNoDirection (x1 y1 x2 y2 : ℚ) : Option ConnectionPath :=
  makeConnectionPath x1 y1 x2 y2 "right"

/-- The guard of the `while` loop at the top of
`setDragBoundaryIntervalIfNecessary`:
`rect.right - b <= rect.left + b || rect.right <= rect.left + b * 4`
("boundary areas overlap, or take up half or more of the svg"). -/
def dragBoundaryResizeNeeded (rect : Rect) (b : ℚ) : Prop :=
  rect.right - b ≤ rect.left + b ∨ rect.right ≤ rect.left + b * 4

instance (rect : Rect) (b : ℚ) : Decidable (dragBoundaryResizeNeeded rect b) :=
  inferInstanceAs (Decidable (_ ∨ _))

/-- The `dragBoundary` value after `n` passes of the loop body
(`this.dragBoundary = this.dragBoundary / 2`). -/
def dragBoundaryAfter (b : ℚ) (n : ℕ) : ℚ := b / 2 ^ n

/-- The halving loop exits: some iterate falsifies the guard.  The loop's state
after `n` passes is exactly `dragBoundaryAfter b n`, so the source loop
terminates on `(rect, b)` iff this proposition holds, and its final
`dragBoundary` is the iterate at the first such `n`. -/
def dragBoundaryLoopExits (rect : Rect) (b : ℚ) : Prop :=
  ∃ n : ℕ, ¬ dragBoundaryResizeNeeded rect (dragBoundaryAfter b n)

/-- The `dragBoundaryInterval` record of `Workflow` (the autoscroll boundary
state): per-axis active flags, the interval handle (`none` = `null`), the
accumulated offsets, and the remembered highlighted port (ports are identified
by a number here; the source stores the `SVGGElement`). -/
structure DragBoundaryInterval where
  x : Bool
  y : Bool
  interval : Option ℕ
  xOffset : ℚ
  yOffset : ℚ
  highlightedPort : Option ℕ
deriving DecidableEq, Repr

/-- The initial value of `dragBoundaryInterval`. -/
def initDragBoundaryInterval : DragBoundaryInterval :=
  { x := false, y := false, interval := none
  , xOffset := 0, yOffset := 0, highlightedPort := none }

/-- Which boundary zones the cursor `(x, y)` hits: `-1`/`1`/`0` per axis. -/
structure BoundaryZones where
  x : Int
  y : Int
deriving DecidableEq, Repr

/-- `getBoundaryZonesXYAxes(x, y)`: computes the four edge tests against
`workflowBoundingClientRect` and `dragBoundary`; when the cursor is on no
boundary and an interval is running, clears the interval, resets the per-axis
flags and forgets the highlighted port (the offsets are untouched); returns
the zone code for each axis.  The result pairs the returned zones with the
updated `dragBoundaryInterval`. -/
def getBoundaryZonesXYAxes (rect : Rect) (dragBoundary : ℚ) (x y : ℚ)
    (st : DragBoundaryInterval) : BoundaryZones × DragBoundaryInterval :=
  let isLeftBoundary := x < rect.left + dragBoundary
  let isRightBoundary := x > rect.right - dragBoundary
  let isTopBoundary := y < rect.top + dragBoundary
  let isBottomBoundary := y > rect.bottom - dragBoundary
  let st' :=
    if ¬ isLeftBoundary ∧ ¬ isRightBoundary ∧ ¬ isTopBoundary ∧ ¬ isBottomBoundary then
      match st.interval with
      | some _ =>
        { st with x := false, y := false, interval := none, highlightedPort := none }
      | none => st
    else st
  ( { x := if isLeftBoundary then -1 else if isRightBoundary then 1 else 0
    , y := if isTopBoundary then -1 else if isBottomBoundary then 1 else 0 }
  , st' )

/-- `setDragBoundaryIntervalToDefault()`: when an interval is running, clears
it, resets the flags and forgets the highlighted port; in every case zeroes
`xOffset` and `yOffset`. -/
def setDragBoundaryIntervalToDefault (st : DragBoundaryInterval) :
    DragBoundaryInterval :=
  let st1 :=
    match st.interval with
    | some _ =>
      { st with x := false, y := false, interval := none, highlightedPort := none }
    | none => st
  { st1 with xOffset := 0, yOffset := 0 }

/-- `setHighlightedPort(sortedMap, edgeDirection)`: the insertion-ordered map
from port to distance is a list of pairs here.  When the map is non-empty and
the first (nearest) port's distance is `< 100`, that port is highlighted and
returned; otherwise the result is `undefined` (`none`).  The class-list side
effects touch no state this development tracks. -/
def setHighlightedPort (sortedMap : List (ℕ × ℚ)) : Option ℕ :=
  match sortedMap with
  | [] => none
  | (p, d) :: _ => if d < 100 then some p else none

/-- The events `deleteSelection` and `setModelPosition` emit on the event hub.
`selectionChange none` is `emit("selectionChange", null)`. -/
inductive HubEvent where
  | beforeChange
  | afterChange
  | selectionChange (target : Option ℕ)
deriving DecidableEq, Repr

/-- The class the selected SVG element carries, which `deleteSelection`
branches on. -/
inductive ElementKind where
  | step
  | edge
  | input
  | output
  | other
deriving DecidableEq, Repr

/-- A `.selected` element as `deleteSelection` reads it: its kind, its
`data-connection-id`, and (for edges) its `data-source-connection` /
`data-destination-connection` attributes. -/
structure SelectedElement where
  kind : ElementKind
  connectionId : ℕ
  sourceConnection : ℕ
  destinationConnection : ℕ
deriving DecidableEq, Repr

/-- The calls `deleteSelection` makes on the model collaborator. -/
inductive ModelOp where
  | removeStep (id : ℕ)
  | disconnect (sourcePortID destinationPortID : ℕ)
  | removeInput (id : ℕ)
  | removeOutput (id : ℕ)
deriving DecidableEq, Repr

/-- The model calls the `selection.forEach` body of `deleteSelection` issues
for one element (each branch also re-renders and refocuses; neither emits a
hub event: the re-render's selection restore never fires for a just-deleted
element, and `invokePlugins("afterRender")` calls plugin methods, not the
hub). -/
def deleteSelectionOps (el : SelectedElement) : List ModelOp :=
  match el.kind with
  | .step => [.removeStep el.connectionId]
  | .edge => [.disconnect el.sourceConnection el.destinationConnection]
  | .input => [.removeInput el.connectionId]
  | .output => [.removeOutput el.connectionId]
  | .other => []

/-- `deleteSelection()`: returns early when nothing is selected; otherwise
emits `beforeChange`, runs the per-element model mutations, then emits
`selectionChange(null)` and `afterChange`.  The result is the emitted hub
event trace paired with the model-operation trace. -/
def deleteSelection (selection : List SelectedElement) :
    List HubEvent × List ModelOp :=
  if selection.length = 0 then ([], [])
  else
    ( [HubEvent.beforeChange]
        ++ [HubEvent.selectionChange none, HubEvent.afterChange]
    , selection.flatMap deleteSelectionOps )

/-- The `customProps` bag of a model object, restricted to the two keys
`setModelPosition` writes (`"sbg:x"`, `"sbg:y"`). -/
structure CustomProps where
  sbgX : ℚ
  sbgY : ℚ
deriving DecidableEq, Repr

/-- A model object as `setModelPosition` sees it: `customProps` may be absent
(`undefined`). -/
structure ModelObject where
  customProps : Option CustomProps
deriving DecidableEq, Repr

/-- `setModelPosition(obj, x, y, emitEvents)`: emits `beforeChange` when
`emitEvents`; when `obj.customProps` is missing, installs the update object
and returns immediately (no `afterChange`); otherwise `Object.assign`s the
update over the existing props and then emits `afterChange` when
`emitEvents`.  The result is the updated object paired with the emitted
event trace. -/
def setModelPosition (obj : ModelObject) (x y : ℚ) (emitEvents : Bool) :
    ModelObject × List HubEvent :=
  let update : CustomProps := { sbgX := x, sbgY := y }
  let pre : List HubEvent := if emitEvents then [.beforeChange] else []
  match obj.customProps with
  | none => ({ customProps := some update }, pre)
  | some _ =>
    ( { customProps := some update }
    , pre ++ (if emitEvents then [.afterChange] else []) )

/-- A plugin as `hookPlugins`/`invokePlugins` see it: for each method of the
`SVGPlugin` interface (all declared optional there), whether this plugin
defines it. -/
structure SVGPlugin where
  registerWorkflowModel : Bool
  registerOnBeforeChange : Bool
  registerOnAfterChange : Bool
  afterRender : Bool
deriving DecidableEq, Repr

/-- The names of the four `SVGPlugin` methods. -/
inductive PluginMethod where
  | registerWorkflowModel
  | registerOnBeforeChange
  | registerOnAfterChange
  | afterRender
deriving DecidableEq, Repr

/-- Whether the plugin defines the method. -/
def SVGPlugin.defines (p : SVGPlugin) : PluginMethod → Bool
  | .registerWorkflowModel => p.registerWorkflowModel
  | .registerOnBeforeChange => p.registerOnBeforeChange
  | .registerOnAfterChange => p.registerOnAfterChange
  | .afterRender => p.afterRender

/-- The JavaScript error raised by calling a property that is `undefined`
(`plugin.someMissingMethod(...)`). -/
inductive JsError where
  | typeError
deriving DecidableEq, Repr

/-- Calling `plugin[m](...)` without a `typeof` guard, as `hookPlugins` does:
a `TypeError` when the plugin does not define `m`, otherwise the recorded call
`(i, m)` on plugin number `i`. -/
def callUnguarded (i : ℕ) (p : SVGPlugin) (m : PluginMethod) :
    Except JsError (ℕ × PluginMethod) :=
  if p.defines m then .ok (i, m) else .error .typeError

/-- `hookPlugins()`: for each plugin, in order, calls
`registerWorkflowModel(this)`, `registerOnBeforeChange(...)` and
`registerOnAfterChange(...)` — each without checking that the method exists.
The result is the trace of successful calls, or the `TypeError` at the first
missing method. -/
def hookPlugins (plugins : List SVGPlugin) :
    Except JsError (List (ℕ × PluginMethod)) :=
  (plugins.enum.foldlM (fun acc (pi : ℕ × SVGPlugin) => do
      let c1 ← callUnguarded pi.1 pi.2 .registerWorkflowModel
      let c2 ← callUnguarded pi.1 pi.2 .registerOnBeforeChange
      let c3 ← callUnguarded pi.1 pi.2 .registerOnAfterChange
      pure (acc ++ [c1, c2, c3])) [])

/-- `invokePlugins(methodName)`: calls `plugin[methodName](...)` on exactly
the plugins for which `typeof plugin[methodName] === "function"`, in
registration order; returns the trace of calls made. -/
def invokePlugins (plugins : List SVGPlugin) (m : PluginMethod) :
    List (ℕ × PluginMethod) :=
  plugins.enum.filterMap fun pi =>
    if pi.2.defines m then some (pi.1, m) else none

/-- C1 (counterexample): the claim says every scale request with a factor
outside `[0.2, 2]` leaves the viewport unchanged, but `scaleWorkflow` — the
engine's scale entry point — carries no bounds check: `scaleWorkflow(3)` from
the initial state changes the viewport scale to `3`. -/
theorem scaleWorkflow_applies_out_of_range_factor :
    ¬ (minScale ≤ (3 : ℚ) ∧ (3 : ℚ) ≤ maxScale) ∧
    scaleWorkflow 3 none initWorkflowState ≠ initWorkflowState := by
  constructor
  · norm_num [minScale, maxScale]
  · intro hEq
    have hs : (scaleWorkflow 3 none initWorkflowState).scale = 3 := rfl
    rw [hEq] at hs
    norm_num [initWorkflowState] at hs

/-- C1 (amended): only the wheel path is guarded.  Whenever the factor the
mousewheel handler computes (`scale + deltaY / 500`) is `≤ minScale` or
`≥ maxScale` — in particular for every factor outside `[0.2, 2]` — the handler
returns with the viewport state unchanged, as a silent no-op. -/
theorem mousewheel_out_of_range_is_noop (st : WorkflowState) (isDragging : Bool)
    (deltaY clientX clientY : ℚ)
    (h : st.scale + deltaY / 500 ≤ minScale ∨ st.scale + deltaY / 500 ≥ maxScale) :
    mousewheelHandler st isDragging deltaY clientX clientY = st := by
  unfold mousewheelHandler
  cases isDragging with
  | true => rfl
  | false => simp [h]

/-- Witness for C1's amended theorem: from the initial state, a wheel delta of
`1000` requests factor `3 ≥ maxScale` and the handler leaves the state
untouched. -/
theorem mousewheel_out_of_range_is_noop_witness :
    mousewheelHandler initWorkflowState false 1000 50 50 = initWorkflowState :=
  mousewheel_out_of_range_is_noop initWorkflowState false 1000 50 50
    (Or.inr (by norm_num [initWorkflowState, maxScale]))

/-- C7: inverse-transform correctness.  For every viewport state with an
invertible matrix, `transformScreenCTMtoCanvas` undoes the forward transform
exactly; and at scale 1, `scaleWorkflow(1/2)` pivoted at `(100, 100)` leaves
the canvas point under `(100, 100)` unchanged. -/
theorem toCanvasSpace_inverse_consistent (st : WorkflowState) (p : Point)
    (ha : st.matrix.a ≠ 0) (hd : st.matrix.d ≠ 0) :
    transformScreenCTMtoCanvas st (forwardTransform st p).x (forwardTransform st p).y = p ∧
    (st.matrix.a = 1 → st.matrix.d = 1 →
      transformScreenCTMtoCanvas
        (scaleWorkflow (1 / 2) (some { x := 100, y := 100 }) st) 100 100 =
      transformScreenCTMtoCanvas st 100 100) := by
  constructor
  · cases p with
    | mk px py =>
      simp only [transformScreenCTMtoCanvas, forwardTransform, Point.mk.injEq]
      constructor <;> field_simp
  · intro h1 hd1
    simp only [scaleWorkflow, transformScreenCTMtoCanvas, h1, hd1, Point.mk.injEq]
    constructor <;> ring

/-- Witness for C7: a concrete panned state and point. -/
theorem toCanvasSpace_inverse_consistent_witness :
    (transformScreenCTMtoCanvas
        { scale := 1, matrix := { a := 1, d := 1, e := 5, f := 7 } }
        (forwardTransform { scale := 1, matrix := { a := 1, d := 1, e := 5, f := 7 } }
          { x := 3, y := 4 }).x
        (forwardTransform { scale := 1, matrix := { a := 1, d := 1, e := 5, f := 7 } }
          { x := 3, y := 4 }).y = { x := 3, y := 4 }) ∧
    transformScreenCTMtoCanvas
        (scaleWorkflow (1 / 2) (some { x := 100, y := 100 })
          { scale := 1, matrix := { a := 1, d := 1, e := 5, f := 7 } }) 100 100 =
      transformScreenCTMtoCanvas
        { scale := 1, matrix := { a := 1, d := 1, e := 5, f := 7 } } 100 100 := by
  have h := toCanvasSpace_inverse_consistent
    { scale := 1, matrix := { a := 1, d := 1, e := 5, f := 7 } }
    { x := 3, y := 4 } (by norm_num) (by norm_num)
  exact ⟨h.1, h.2 rfl rfl⟩

/-- On a zero-area viewport, `fitToViewport` throws; the state it carries is
the already-mutated one (`scaleWorkflow(1)` ran and `e`, `f` were zeroed). -/
theorem fitToViewport_zero_area_eq (st : WorkflowState) (content client : Rect)
    (h : client.width = 0 ∨ client.height = 0) :
    fitToViewport st content client =
      .error { state := { scale := 1, matrix := { a := 1, d := 1, e := 0, f := 0 } } } := by
  unfold fitToViewport
  simp only [if_pos h]
  rfl

/-- C2: `fitToViewport` throws its viewport error exactly when the viewport
bounding rectangle has zero width or zero height, and whenever it succeeds the
resulting scale is capped at `1` (never upscales past native size). -/
theorem fitToViewport_error_iff_and_scale_cap (st : WorkflowState)
    (content client : Rect) :
    ((∃ err, fitToViewport st content client = .error err) ↔
      client.width = 0 ∨ client.height = 0) ∧
    ∀ st', fitToViewport st content client = .ok st' → st'.scale ≤ 1 := by
  by_cases h : client.width = 0 ∨ client.height = 0
  · refine ⟨⟨fun _ => h, fun _ => ⟨_, fitToViewport_zero_area_eq st content client h⟩⟩, ?_⟩
    intro st' hst'
    rw [fitToViewport_zero_area_eq st content client h] at hst'
    exact Except.noConfusion hst'
  · refine ⟨⟨?_, fun hyes => absurd hyes h⟩, ?_⟩
    · rintro ⟨err, herr⟩
      simp only [fitToViewport, if_neg h] at herr
      exact Except.noConfusion herr
    · intro st' hst'
      simp only [fitToViewport, if_neg h, Except.ok.injEq] at hst'
      subst hst'
      exact min_le_right _ 1

/-- Witness for C2: a zero-width viewport makes `fitToViewport` throw, and on
a `500 × 300` viewport with `1000 × 800` content it succeeds with scale
`≤ 1`. -/
theorem fitToViewport_error_iff_and_scale_cap_witness :
    (∃ err, fitToViewport initWorkflowState
        { left := 0, top := 0, width := 1000, height := 800 }
        { left := 0, top := 0, width := 0, height := 300 } = .error err) ∧
    (∃ st', fitToViewport initWorkflowState
        { left := 0, top := 0, width := 1000, height := 800 }
        { left := 0, top := 0, width := 500, height := 300 } = .ok st' ∧
        st'.scale ≤ 1) := by
  constructor
  · exact (fitToViewport_error_iff_and_scale_cap initWorkflowState
      { left := 0, top := 0, width := 1000, height := 800 }
      { left := 0, top := 0, width := 0, height := 300 }).1.mpr (Or.inl rfl)
  · have hcap := (fitToViewport_error_iff_and_scale_cap initWorkflowState
      { left := 0, top := 0, width := 1000, height := 800 }
      { left := 0, top := 0, width := 500, height := 300 }).2
    have hnoerr := (fitToViewport_error_iff_and_scale_cap initWorkflowState
      { left := 0, top := 0, width := 1000, height := 800 }
      { left := 0, top := 0, width := 500, height := 300 }).1
    cases hfit : fitToViewport initWorkflowState
        { left := 0, top := 0, width := 1000, height := 800 }
        { left := 0, top := 0, width := 500, height := 300 } with
    | error err =>
      have h0 := hnoerr.mp ⟨err, hfit⟩
      norm_num at h0
    | ok st' => exact ⟨st', rfl, hcap st' hfit⟩

/-- C3: `deleteSelection` with an empty selection emits no events and issues
no model mutations; with a single selected edge it emits exactly
`beforeChange`, then `selectionChange(null)`, then `afterChange`, and the one
model mutation is the `disconnect` of the edge's two ports. -/
theorem deleteSelection_event_trace (el : SelectedElement)
    (hedge : el.kind = .edge) :
    deleteSelection [] = ([], []) ∧
    (deleteSelection [el]).1 =
      [HubEvent.beforeChange, HubEvent.selectionChange none, HubEvent.afterChange] ∧
    (deleteSelection [el]).2 =
      [ModelOp.disconnect el.sourceConnection el.destinationConnection] := by
  refine ⟨rfl, rfl, ?_⟩
  simp [deleteSelection, deleteSelectionOps, hedge]

/-- Witness for C3: a concrete selected edge. -/
theorem deleteSelection_event_trace_witness :
    deleteSelection [] = ([], []) ∧
    (deleteSelection
      [{ kind := .edge, connectionId := 0, sourceConnection := 4, destinationConnection := 9 }]).1 =
      [HubEvent.beforeChange, HubEvent.selectionChange none, HubEvent.afterChange] ∧
    (deleteSelection
      [{ kind := .edge, connectionId := 0, sourceConnection := 4, destinationConnection := 9 }]).2 =
      [ModelOp.disconnect 4 9] :=
  deleteSelection_event_trace
    { kind := .edge, connectionId := 0, sourceConnection := 4, destinationConnection := 9 } rfl

/-- C4: the `SVGPlugin` interface declares every method optional, but
`hookPlugins` calls `registerWorkflowModel`, `registerOnBeforeChange` and
`registerOnAfterChange` without a `typeof` guard, so attaching a plugin that
omits any of them throws a `TypeError`.  For plugins that do define them,
attach makes the three register calls in order, and `invokePlugins` (used for
`afterRender` after every full re-render) calls exactly the plugins defining
the method, in registration order. -/
theorem hookPlugins_throws_on_method_omission :
    hookPlugins [{ registerWorkflowModel := false, registerOnBeforeChange := false
                 , registerOnAfterChange := false, afterRender := true }] =
      .error .typeError ∧
    hookPlugins [{ registerWorkflowModel := true, registerOnBeforeChange := true
                 , registerOnAfterChange := false, afterRender := true }] =
      .error .typeError ∧
    hookPlugins [{ registerWorkflowModel := true, registerOnBeforeChange := true
                 , registerOnAfterChange := true, afterRender := false }] =
      .ok [(0, .registerWorkflowModel), (0, .registerOnBeforeChange),
           (0, .registerOnAfterChange)] ∧
    invokePlugins
      [{ registerWorkflowModel := true, registerOnBeforeChange := true
       , registerOnAfterChange := true, afterRender := true }
      , { registerWorkflowModel := true, registerOnBeforeChange := true
        , registerOnAfterChange := true, afterRender := false }
      , { registerWorkflowModel := true, registerOnBeforeChange := true
        , registerOnAfterChange := true, afterRender := true }] .afterRender =
      [(0, .afterRender), (2, .afterRender)] :=
  ⟨rfl, rfl, rfl, rfl⟩

/-- C5 (counterexample): the claim says an absent direction puts both control
points at the horizontal midpoint, but the TypeScript default is `"right"`:
from `(10, 0)` to `(0, 0)` the call without a direction yields a first control
point at `x = 15`, not the midpoint `(10 + 0) / 2 = 5`. -/
theorem makeConnectionPath_default_not_midpoint :
    (makeConnectionPathNoDirection 10 0 0 0).map ConnectionPath.c1x ≠
      some (((10 : ℚ) + 0) / 2) := by
  have h : (makeConnectionPathNoDirection 10 0 0 0).map ConnectionPath.c1x =
      some ((10 : ℚ) + |10 - 0| / 2) := rfl
  rw [h]
  intro hcontra
  rw [Option.some.injEq] at hcontra
  norm_num at hcontra

/-- C5 (amended): with direction `"right"` the control points sit at
`x1 + |x1 - x2| / 2` and `x2 - |x1 - x2| / 2` on their anchors' y-lines;
`"left"` mirrors the offsets; an explicitly empty (falsy) direction gives the
symmetric midpoint curve; an absent direction defaults to `"right"`, not to
the midpoint curve. -/
theorem makeConnectionPath_control_points (x1 y1 x2 y2 : ℚ) :
    makeConnectionPath x1 y1 x2 y2 "right" =
      some { x1 := x1, y1 := y1
           , c1x := x1 + |x1 - x2| / 2, c1y := y1
           , c2x := x2 - |x1 - x2| / 2, c2y := y2
           , x2 := x2, y2 := y2 } ∧
    makeConnectionPath x1 y1 x2 y2 "left" =
      some { x1 := x1, y1 := y1
           , c1x := x1 - |x1 - x2| / 2, c1y := y1
           , c2x := x2 + |x1 - x2| / 2, c2y := y2
           , x2 := x2, y2 := y2 } ∧
    makeConnectionPath x1 y1 x2 y2 "" =
      some { x1 := x1, y1 := y1
           , c1x := (x1 + x2) / 2, c1y := y1
           , c2x := (x1 + x2) / 2, c2y := y2
           , x2 := x2, y2 := y2 } ∧
    makeConnectionPathNoDirection x1 y1 x2 y2 = makeConnectionPath x1 y1 x2 y2 "right" := by
  refine ⟨?_, ?_, rfl, rfl⟩ <;> simp [makeConnectionPath]

/-- C6 (counterexample): the claim says the halving loop terminates for every
viewport bounding rectangle, but on a zero-width rectangle (a hidden viewport,
the very case `canDrawIn` exists to detect) the guard holds for every iterate:
`dragBoundary` halves forever and the loop never exits. -/
theorem dragBoundaryLoop_diverges_on_zero_width :
    ¬ dragBoundaryLoopExits { left := 0, top := 0, width := 0, height := 0 } 50 := by
  rintro ⟨n, hn⟩
  apply hn
  right
  have hpos : (0 : ℚ) < 50 / 2 ^ n := by positivity
  simp only [Rect.right, dragBoundaryAfter]
  nlinarith

/-- C6 (amended): for every viewport rectangle of positive width (and positive
initial boundary thickness, as in the source where `dragBoundary` starts at
`50` and is only ever halved), the loop exits, and the boundary it leaves —
the iterate at the first guard failure, which is the loop's final
`dragBoundary` — has a non-degenerate interior region between the left and
right boundary zones. -/
theorem dragBoundaryLoop_terminates_on_pos_width (rect : Rect) (b : ℚ)
    (hb : 0 < b) (hw : 0 < rect.width) :
    ∃ hex : dragBoundaryLoopExits rect b,
      rect.left + dragBoundaryAfter b (Nat.find hex) <
        rect.right - dragBoundaryAfter b (Nat.find hex) := by
  obtain ⟨n, hn⟩ := pow_unbounded_of_one_lt (α := ℚ) (4 * b / rect.width)
    (by norm_num : (1 : ℚ) < 2)
  have hpow : (0 : ℚ) < 2 ^ n := by positivity
  have hb' : (0 : ℚ) < b / 2 ^ n := by positivity
  have h4 : 4 * (b / 2 ^ n) < rect.width := by
    rw [div_lt_iff₀ hw] at hn
    rw [← mul_div_assoc, div_lt_iff₀ hpow]
    nlinarith
  have hexit : ¬ dragBoundaryResizeNeeded rect (dragBoundaryAfter b n) := by
    simp only [dragBoundaryResizeNeeded, dragBoundaryAfter, Rect.right, not_or, not_le]
    constructor <;> nlinarith
  have key : ∀ m : ℕ, ¬ dragBoundaryResizeNeeded rect (dragBoundaryAfter b m) →
      rect.left + dragBoundaryAfter b m < rect.right - dragBoundaryAfter b m := by
    intro m hm
    simp only [dragBoundaryResizeNeeded, not_or, not_le] at hm
    exact hm.1
  exact ⟨⟨n, hexit⟩, key _
    (Nat.find_spec (p := fun m => ¬ dragBoundaryResizeNeeded rect (dragBoundaryAfter b m))
      ⟨n, hexit⟩)⟩

/-- Witness for C6's amended theorem: a `600 × 400` viewport with the default
`dragBoundary = 50` (the guard already fails at the first iterate). -/
theorem dragBoundaryLoop_terminates_witness :
    ∃ hex : dragBoundaryLoopExits { left := 0, top := 0, width := 600, height := 400 } 50,
      Rect.left { left := 0, top := 0, width := 600, height := 400 } +
          dragBoundaryAfter 50 (Nat.find hex) <
        Rect.right { left := 0, top := 0, width := 600, height := 400 } -
          dragBoundaryAfter 50 (Nat.find hex) :=
  dragBoundaryLoop_terminates_on_pos_width
    { left := 0, top := 0, width := 600, height := 400 } 50
    (by norm_num) (by norm_num)

/-- C8: while an autoscroll interval is running, moving the cursor back into
the interior (`getBoundaryZonesXYAxes` with no boundary hit) clears the
interval, resets both per-axis flags, forgets the snap highlight, and leaves
the accumulated `xOffset` and `yOffset` untouched; `setDragBoundaryIntervalToDefault`
(run on drag-end) instead resets every field to its default, offsets
included. -/
theorem boundaryInterior_retains_offsets_dragEnd_resets (rect : Rect)
    (dragBoundary x y : ℚ) (st : DragBoundaryInterval) (t : ℕ)
    (hInt : st.interval = some t)
    (hL : ¬ x < rect.left + dragBoundary) (hR : ¬ x > rect.right - dragBoundary)
    (hT : ¬ y < rect.top + dragBoundary) (hB : ¬ y > rect.bottom - dragBoundary) :
    (getBoundaryZonesXYAxes rect dragBoundary x y st).2 =
      { st with x := false, y := false, interval := none, highlightedPort := none } ∧
    (getBoundaryZonesXYAxes rect dragBoundary x y st).2.xOffset = st.xOffset ∧
    (getBoundaryZonesXYAxes rect dragBoundary x y st).2.yOffset = st.yOffset ∧
    (getBoundaryZonesXYAxes rect dragBoundary x y st).1 = { x := 0, y := 0 } ∧
    setDragBoundaryIntervalToDefault st = initDragBoundaryInterval := by
  have hzones : getBoundaryZonesXYAxes rect dragBoundary x y st =
      ( { x := 0, y := 0 }
      , { st with x := false, y := false, interval := none, highlightedPort := none } ) := by
    simp only [getBoundaryZonesXYAxes, hInt]
    rw [if_neg hL, if_neg hR, if_neg hT, if_neg hB, if_pos ⟨hL, hR, hT, hB⟩]
  have hdefault : setDragBoundaryIntervalToDefault st = initDragBoundaryInterval := by
    unfold setDragBoundaryIntervalToDefault
    rw [hInt]
    rfl
  exact ⟨by rw [hzones], by rw [hzones], by rw [hzones], by rw [hzones], hdefault⟩

/-- Witness for C8: a cursor at `(300, 200)` inside a `600 × 400` viewport
with `dragBoundary = 50`, while the interval runs with accumulated offsets
`(12, 34)` and a remembered port. -/
theorem boundaryInterior_retains_offsets_dragEnd_resets_witness :
    (getBoundaryZonesXYAxes { left := 0, top := 0, width := 600, height := 400 } 50 300 200
        { x := true, y := false, interval := some 1, xOffset := 12, yOffset := 34
        , highlightedPort := some 9 }).2 =
      { x := false, y := false, interval := none, xOffset := 12, yOffset := 34
      , highlightedPort := none } ∧
    setDragBoundaryIntervalToDefault
        { x := true, y := false, interval := some 1, xOffset := 12, yOffset := 34
        , highlightedPort := some 9 } = initDragBoundaryInterval := by
  have h := boundaryInterior_retains_offsets_dragEnd_resets
    { left := 0, top := 0, width := 600, height := 400 } 50 300 200
    { x := true, y := false, interval := some 1, xOffset := 12, yOffset := 34
    , highlightedPort := some 9 } 1 rfl
    (by norm_num [Rect.left]) (by norm_num [Rect.right])
    (by norm_num [Rect.top]) (by norm_num [Rect.bottom])
  exact ⟨h.1, h.2.2.2.2⟩

/-- C9: on a ranked candidate map whose head is the nearest candidate,
`setHighlightedPort` returns no port when the nearest distance is `≥ 100`
(so exactly `100` yields none) and the nearest port's id when the distance is
strictly below `100`; an empty map yields none. -/
theorem setHighlightedPort_threshold (p : ℕ) (d : ℚ) (rest : List (ℕ × ℚ))
    (_hnearest : ∀ q ∈ (p, d) :: rest, d ≤ q.2) :
    setHighlightedPort [] = none ∧
    (100 ≤ d → setHighlightedPort ((p, d) :: rest) = none) ∧
    (d < 100 → setHighlightedPort ((p, d) :: rest) = some p) := by
  refine ⟨rfl, ?_, ?_⟩
  · intro h
    simp [setHighlightedPort, not_lt.mpr h]
  · intro h
    simp [setHighlightedPort, h]

/-- Witness for C9: a candidate at exactly distance `100` is not snapped;
with candidates at distances `40` and `150` the nearer port is snapped. -/
theorem setHighlightedPort_threshold_witness :
    setHighlightedPort [(7, 100)] = none ∧
    setHighlightedPort [(3, 40), (9, 150)] = some 3 := by
  constructor
  · exact (setHighlightedPort_threshold 7 100 []
      (by intro q hq; simp at hq; simp [hq])).2.1 le_rfl
  · refine (setHighlightedPort_threshold 3 40 [(9, 150)] ?_).2.2 (by norm_num)
    intro q hq
    simp only [List.mem_cons, List.not_mem_nil, or_false] at hq
    rcases hq with h | h
    · rw [h]
    · rw [h]
      norm_num

/-- C10: `setModelPosition` with events enabled brackets the update in
`beforeChange`/`afterChange` when the object already has `customProps`, but
when `customProps` is absent it emits `beforeChange`, installs the update and
returns without the matching `afterChange`. -/
theorem setModelPosition_unbalanced_bracket (obj : ModelObject) (x y : ℚ) :
    (∀ props, obj.customProps = some props →
      setModelPosition obj x y true =
        ({ customProps := some { sbgX := x, sbgY := y } },
         [HubEvent.beforeChange, HubEvent.afterChange])) ∧
    (obj.customProps = none →
      setModelPosition obj x y true =
        ({ customProps := some { sbgX := x, sbgY := y } },
         [HubEvent.beforeChange])) := by
  constructor
  · intro props hprops
    simp [setModelPosition, hprops]
  · intro hnone
    simp [setModelPosition, hnone]

/-- Witness for C10: a concrete object with props gets the matched pair; one
without props gets only `beforeChange`. -/
theorem setModelPosition_unbalanced_bracket_witness :
    setModelPosition { customProps := some { sbgX := 1, sbgY := 2 } } 10 20 true =
      ({ customProps := some { sbgX := 10, sbgY := 20 } },
       [HubEvent.beforeChange, HubEvent.afterChange]) ∧
    setModelPosition { customProps := none } 10 20 true =
      ({ customProps := some { sbgX := 10, sbgY := 20 } },
       [HubEvent.beforeChange]) :=
  ⟨(setModelPosition_unbalanced_bracket { customProps := some { sbgX := 1, sbgY := 2 } } 10 20).1
      { sbgX := 1, sbgY := 2 } rfl,
   (setModelPosition_unbalanced_bracket { customProps := none } 10 20).2 rfl⟩
